import Mathlib

/-!
Verification of the Wind-Turbine-Designer repository.

Shallow embedding conventions:
* Python floats are modelled as rationals (`ℚ`); all the arithmetic the
  claims touch is exact at the inputs used, so `ℚ` is a faithful model.
* `numpy.pi` (and the solver's π in `rotor_area = π·r²`) is carried as an
  explicit positive rational parameter `piV`; every statement is proved for
  an arbitrary such value, which subsumes the concrete float constant.
* The Rust extension `wind_calc` (the Turbine Sizing Solver) is not part of
  the sources; where a claim depends on it, the solver is modelled from the
  spec (each such definition carries a `Modelled from the spec:` note).
-/

namespace WindTurbine

/-! ## Visualization layer (`python/wind_turbine/visualize.py`) -/

/-- Embeds the Cp model of `plot_tsr_analysis` (visualize.py lines 58-63):
`a, b, c = 0.5, 0.3, 0.02; cp = a*tsr*(1.0 - b*tsr + c*tsr**2)`, clamped by
`max(0, cp)`. -/
def cpCurve (t : ℚ) : ℚ :=
  max 0 ((1/2) * t * (1 - (3/10) * t + (1/50) * t^2))

/-- Embeds the sampling grid `tsr_range = np.linspace(1, 15, 100)` of
`plot_tsr_analysis`: the i-th sample point. -/
def tsrSample (i : ℕ) : ℚ := 1 + 14 * i / 99

/-- Embeds `cp_values` of `plot_tsr_analysis`: the clamped Cp at every
sampled TSR. -/
def cpValues : List ℚ := (List.range 100).map (fun i => cpCurve (tsrSample i))

/-- Embeds the fixed operating TSR of `power_curve` (visualize.py line 10):
`tsr = 7.0`. -/
def powerCurveTsr : ℚ := 7

/-- Embeds the fixed power coefficient of `power_curve` (visualize.py
line 11): `cp = 0.4`. -/
def powerCurveCp : ℚ := 2/5

/-- The simplified configuration consumed by `power_curve` (a Python dict
with keys `blade_radius`, `air_density`, `cut_in`, `cut_out`). -/
structure VizCfg where
  blade_radius : ℚ
  air_density : ℚ
  cut_in : ℚ
  cut_out : ℚ
deriving DecidableEq

/-- Embeds the power value `power_curve` assigns to one wind speed `v`:
`power = cp * 0.5 * air_density * area * v**3` with `area = pi * r**2`,
then `power[(v < cut_in) | (v > cut_out)] = 0`. -/
def powerAt (piV : ℚ) (cfg : VizCfg) (v : ℚ) : ℚ :=
  if v < cfg.cut_in ∨ cfg.cut_out < v then 0
  else powerCurveCp * (1/2) * cfg.air_density * (piV * cfg.blade_radius^2) * v^3

/-- Embeds `v = np.linspace(min_v, max_v, steps)` with the `power_curve`
defaults `min_v=0.0, max_v=25.0, steps=200`: the i-th sampled wind speed. -/
def windSample (i : ℕ) : ℚ := 25 * i / 199

/-- Embeds the `(wind_speed, power)` table returned by `power_curve` as a
list of pairs. -/
def powerCurveTable (piV : ℚ) (cfg : VizCfg) : List (ℚ × ℚ) :=
  (List.range 200).map (fun i => (windSample i, powerAt piV cfg (windSample i)))

/-- Embeds the RPM computation of `plot_tsr_analysis` (visualize.py lines
73-81): `omega = tsr * v / blade_radius; rpm = omega * 60.0 / (2.0 * np.pi)`.
This is also the spec's `shaftRpm` formula (§4.1). -/
def shaftRpm (piV t v r : ℚ) : ℚ :=
  t * v / r * 60 / (2 * piV)

/-! ## Core data model and Turbine Sizing Solver

The Rust `wind_calc` extension that implements these is absent from the
sources (only its Python callers and tests are present), so the data types
and the solver are modelled from the spec (§3, §4, §7). -/

/-- Modelled from the spec: `GeneratorType` — closed enumeration
{Brushed, Brushless} (§3). The Rust enum itself is not in the sources. -/
inductive GeneratorType where
  | Brushed
  | Brushless
deriving DecidableEq

/-- Modelled from the spec: `Environment` — ambient air density and
representative wind speed (§3). The Rust struct itself is not in the
sources. -/
structure Env where
  air_density : ℚ
  wind_speed : ℚ
deriving DecidableEq

/-- Modelled from the spec: `Constraints` — blade radius, blade count,
generator family (§3). The Rust struct itself is not in the sources. -/
structure Constraints where
  blade_radius : ℚ
  num_blades : ℤ
  generator_type : GeneratorType
deriving DecidableEq

/-- Modelled from the spec: `TurbineConfig` — target wattage plus owned
`Environment` and `Constraints` (§3). The Rust struct itself is not in the
sources. -/
structure TurbineConfig where
  target_wattage : ℚ
  env : Env
  constraints : Constraints
deriving DecidableEq

/-- Modelled from the spec: `DesignSummary` — the eight-field immutable
output record (§3). The Rust struct itself is not in the sources. -/
structure DesignSummary where
  rotor_area : ℚ
  blade_length : ℚ
  tsr : ℚ
  rpm : ℚ
  gear_ratio : ℚ
  generator_type : GeneratorType
  cut_in : ℚ
  cut_out : ℚ
deriving DecidableEq

/-- Modelled from the spec: the three classified solver error kinds (§7);
`InfeasibleDesign` carries `P_max`, `InvalidInput` the offending field
name. The Rust error enum itself is not in the sources. -/
inductive SolverError where
  | invalidInput (field : String)
  | infeasibleDesign (p_max : ℚ)
  | solverDidNotConverge
deriving DecidableEq

/-- Spec §4.1: recommended TSR domain lower end. -/
def TSR_MIN : ℚ := 1

/-- Spec §4.1: recommended TSR domain upper end. -/
def TSR_MAX : ℚ := 15

/-- Spec §4.2 step 7: fixed operating-envelope constant, `2.5` m/s. -/
def CUT_IN : ℚ := 5/2

/-- Spec §4.2 step 7: fixed operating-envelope constant, `25.0` m/s. -/
def CUT_OUT : ℚ := 25

/-- Modelled from the spec: `powerCoefficient(tsr)` — the exact curve is a
model-fitting choice not present in the sources; this instance satisfies
every §4.1 requirement: nonnegative on `[1, 15]`, zero at both ends,
single interior maximum `57/100 < 0.593` (Betz) at `tsr = 8`, strictly
increasing before it and strictly decreasing after it. -/
def powerCoefficient (t : ℚ) : ℚ :=
  (57/100) * ((t - TSR_MIN) * (TSR_MAX - t)) / 49

/-- The Cp-maximizing TSR of `powerCoefficient` (the midpoint of the
quadratic's roots `1` and `15`). -/
def tsrOpt : ℚ := 8

/-- Modelled from the spec: `availablePower(tsr, env, area) -> P`:
`P = Cp(tsr) · 0.5 · air_density · area · wind_speed³` (§4.1). -/
def availablePower (t : ℚ) (e : Env) (area : ℚ) : ℚ :=
  powerCoefficient t * (1/2) * e.air_density * area * e.wind_speed^3

/-- Modelled from the spec: `nominalGeneratorRpm` — a fixed positive
lookup per `GeneratorType` (§4.2 step 6); the concrete band values are not
in the sources, so two arbitrary positive constants are used. -/
def nominalGeneratorRpm : GeneratorType → ℚ
  | GeneratorType.Brushed => 3000
  | GeneratorType.Brushless => 1500

/-- Modelled from the spec: input validation (§4.2 step 1, §7): reject on
the first violation among `air_density ≤ 0`, `wind_speed ≤ 0`,
`blade_radius ≤ 0`, `num_blades < 1`, `target_wattage ≤ 0`, reporting the
offending field name. -/
def validate (cfg : TurbineConfig) : Option SolverError :=
  if cfg.env.air_density ≤ 0 then some (SolverError.invalidInput ("air_density"))
  else if cfg.env.wind_speed ≤ 0 then some (SolverError.invalidInput ("wind_speed"))
  else if cfg.constraints.blade_radius ≤ 0 then some (SolverError.invalidInput ("blade_radius"))
  else if cfg.constraints.num_blades < 1 then some (SolverError.invalidInput ("num_blades"))
  else if cfg.target_wattage ≤ 0 then some (SolverError.invalidInput ("target_wattage"))
  else none

/-- Modelled from the spec: the bracketed bisection root search of §4.2
step 4 with its iteration cap: at each step the bracket midpoint is
accepted if the absolute power error is within tolerance; once the budget
is exhausted the last midpoint is accepted only if within tolerance,
otherwise the search fails (`SolverDidNotConverge`). -/
def bisect (f : ℚ → ℚ) (tol : ℚ) : ℕ → ℚ → ℚ → Option ℚ
  | 0, lo, hi =>
      if |f ((lo + hi) / 2)| ≤ tol then some ((lo + hi) / 2) else none
  | k+1, lo, hi =>
      if |f ((lo + hi) / 2)| ≤ tol then some ((lo + hi) / 2)
      else if 0 < f ((lo + hi) / 2) then bisect f tol k lo ((lo + hi) / 2)
      else bisect f tol k ((lo + hi) / 2) hi

/-- Spec §4.2 step 4: maximum iteration cap for the root search. -/
def ITER_CAP : ℕ := 100

/-- Modelled from the spec: the Design Solver (§4.2). Validates, computes
`rotor_area = π·r²` (π passed as the positive rational parameter `piV`),
computes `P_max` at the Cp-maximizing TSR, rejects infeasible targets with
`InfeasibleDesign P_max`, root-searches the rising branch
`[TSR_MIN, tsrOpt]` for the target power with relative tolerance `1e-4`,
and assembles the `DesignSummary` (steps 5-8). -/
def solve (piV : ℚ) (cfg : TurbineConfig) : Except SolverError DesignSummary :=
  match validate cfg with
  | some e => Except.error e
  | none =>
    let area := piV * cfg.constraints.blade_radius^2
    let pMax := availablePower tsrOpt cfg.env area
    if pMax < cfg.target_wattage then Except.error (SolverError.infeasibleDesign pMax)
    else
      match bisect (fun t => availablePower t cfg.env area - cfg.target_wattage)
          (cfg.target_wattage / 10000) ITER_CAP TSR_MIN tsrOpt with
      | none => Except.error SolverError.solverDidNotConverge
      | some t =>
        let rpm := shaftRpm piV t cfg.env.wind_speed cfg.constraints.blade_radius
        Except.ok
          { rotor_area := area
            blade_length := cfg.constraints.blade_radius
            tsr := t
            rpm := rpm
            gear_ratio := rpm / nominalGeneratorRpm cfg.constraints.generator_type
            generator_type := cfg.constraints.generator_type
            cut_in := CUT_IN
            cut_out := CUT_OUT }

/-! ## GUI layer (`python/wind_turbine/gui.py`) -/

/-- Embeds the five labelled input rows built by `DesignApp.__init__`
(gui.py lines 13-25): the form's label strings, in order. There is no
generator-type row. -/
def guiFieldLabels : List String :=
  ["Target Wattage:", "Air Density:", "Wind Speed (m/s):",
   "Blade Radius (m):", "Number of Blades:"]

/-- Embeds the `PyTurbineConfig` construction in `DesignApp.generate`
(gui.py lines 35-44): the five parsed numeric fields are passed through,
and `generator_type` is the hard-coded `wind_calc.GeneratorType.Brushless`. -/
def guiBuildConfig (wa ρ v r : ℚ) (n : ℤ) : TurbineConfig :=
  { target_wattage := wa
    env := { air_density := ρ, wind_speed := v }
    constraints :=
      { blade_radius := r, num_blades := n
        generator_type := GeneratorType.Brushless } }

/-- Modelled from the spec: the message text `str(e)` of a classified
solver error surfaced to the front-ends (§7: `InvalidInput` reported with
the offending field name, `InfeasibleDesign` with `P_max`); the Rust
`Display` implementation itself is not in the sources. -/
def errMessage : SolverError → String
  | SolverError.invalidInput f => "InvalidInput: " ++ f
  | SolverError.infeasibleDesign p => "InfeasibleDesign: P_max = " ++ toString p
  | SolverError.solverDidNotConverge => "SolverDidNotConverge"

/-- The observable result of one `DesignApp.generate` click: either the
information dialog showing the summary, or the critical error dialog
showing the error message. -/
inductive GuiOutcome where
  | summaryDialog (s : DesignSummary)
  | failureDialog (msg : String)
deriving DecidableEq

/-- Embeds `DesignApp.generate` (gui.py lines 33-53): build the config
from the five form fields, run the solver; on an exception show the
critical dialog with the error text and return no summary, otherwise show
the summary dialog. -/
def guiGenerate (piV wa ρ v r : ℚ) (n : ℤ) : GuiOutcome :=
  match solve piV (guiBuildConfig wa ρ v r n) with
  | Except.error e => GuiOutcome.failureDialog (errMessage e)
  | Except.ok s => GuiOutcome.summaryDialog s

/-! ## CLI layer (`python/wind_turbine/cli.py`) -/

/-- A JSON scalar as it appears in the serialized summary: the numeric
fields are numbers, `generator_type` is a string. -/
inductive JVal where
  | num (q : ℚ)
  | str (s : String)
deriving DecidableEq

/-- The serialized name of a generator variant. -/
def generatorName : GeneratorType → String
  | GeneratorType.Brushed => "brushed"
  | GeneratorType.Brushless => "brushless"

/-- Modelled from the spec: the key/value pairs of the serialized
`DesignSummary` dict returned by `PySolver.design_summary` — exactly the
eight fields of §3, which `json.dump` and `pd.DataFrame` then write
verbatim; the Rust serialization itself is not in the sources (the test
`test_solver_design_summary` checks these keys are present). -/
def summaryToPairs (d : DesignSummary) : List (String × JVal) :=
  [("rotor_area", JVal.num d.rotor_area),
   ("blade_length", JVal.num d.blade_length),
   ("tsr", JVal.num d.tsr),
   ("rpm", JVal.num d.rpm),
   ("gear_ratio", JVal.num d.gear_ratio),
   ("generator_type", JVal.str (generatorName d.generator_type)),
   ("cut_in", JVal.num d.cut_in),
   ("cut_out", JVal.num d.cut_out)]

/-- The field names of the serialized summary, in order. -/
def summaryFieldNames (d : DesignSummary) : List String :=
  (summaryToPairs d).map Prod.fst

/-- The pattern `".json"` of the CLI's path rewrite, as a character list. -/
def jsonPat : List Char := ['.', 'j', 's', 'o', 'n']

/-- Embeds Python's `output.replace(".json", ".csv")` (cli.py lines
37-39): replace every non-overlapping occurrence of `".json"`,
left-to-right, by `".csv"`. -/
def replaceJsonCsv : List Char → List Char
  | '.' :: 'j' :: 's' :: 'o' :: 'n' :: rest => '.' :: 'c' :: 's' :: 'v' :: replaceJsonCsv rest
  | c :: rest => c :: replaceJsonCsv rest
  | [] => []

/-- The path the CLI writes the CSV to, derived from `--output`. -/
def cliCsvPath (out : List Char) : List Char := replaceJsonCsv out

/-- The kind of artifact a CLI write puts at a path. -/
inductive ArtifactKind where
  | jsonSummary
  | csvTable
deriving DecidableEq

/-- Embeds the write sequence of the CLI `design` command (cli.py lines
32-39): first `json.dump(summary, f)` at `--output`, then
`df.to_csv(output.replace(".json", ".csv"))`. -/
def cliWrites (out : List Char) : List (List Char × ArtifactKind) :=
  [(out, ArtifactKind.jsonSummary), (cliCsvPath out, ArtifactKind.csvTable)]

/-- The artifact left at a path after all writes (later writes win). -/
def lastWrite (writes : List (List Char × ArtifactKind)) (p : List Char) :
    Option ArtifactKind :=
  (writes.reverse.find? (fun w => w.fst == p)).map Prod.snd

/-- The proposition that `f` names a `TurbineConfig` field that actually
violates its §7 validity bound. -/
def fieldViolation (cfg : TurbineConfig) (f : String) : Prop :=
  (f = "air_density" ∧ cfg.env.air_density ≤ 0) ∨
  (f = "wind_speed" ∧ cfg.env.wind_speed ≤ 0) ∨
  (f = "blade_radius" ∧ cfg.constraints.blade_radius ≤ 0) ∨
  (f = "num_blades" ∧ cfg.constraints.num_blades < 1) ∨
  (f = "target_wattage" ∧ cfg.target_wattage ≤ 0)

/-- The character list of the path `"output.txt"` (no `".json"` inside). -/
def outputTxtPath : List Char := ['o', 'u', 't', 'p', 'u', 't', '.', 't', 'x', 't']

/-- The character list of the path `"result.out"` (no `".json"` inside). -/
def resultOutPath : List Char := ['r', 'e', 's', 'u', 'l', 't', '.', 'o', 'u', 't']

/-- The character list of the CLI's default `--output` path
`"summary.json"`. -/
def summaryJsonPath : List Char :=
  ['s', 'u', 'm', 'm', 'a', 'r', 'y', '.', 'j', 's', 'o', 'n']

/-! ## Helper lemmas -/

/-- A path without a `".json"` occurrence is untouched by the CLI's
`.replace(".json", ".csv")` rewrite. -/
theorem replaceJsonCsv_eq_self : ∀ s : List Char, ¬ (jsonPat <:+: s) → replaceJsonCsv s = s := by
  intro s
  induction s using replaceJsonCsv.induct with
  | case1 rest ih =>
    intro h
    exact absurd ⟨[], rest, rfl⟩ h
  | case2 c rest hpat ih =>
    intro h
    have hr : ¬ (jsonPat <:+: rest) := by
      intro ⟨p, q, hpq⟩
      exact h ⟨c :: p, q, by simp [← hpq]⟩
    simp [replaceJsonCsv, ih hr]
  | case3 => intro _; rfl

/-- A path with a `".json"` occurrence is changed by the CLI's
`.replace(".json", ".csv")` rewrite. -/
theorem replaceJsonCsv_ne_self : ∀ s : List Char, jsonPat <:+: s → replaceJsonCsv s ≠ s := by
  intro s
  induction s using replaceJsonCsv.induct with
  | case1 rest ih =>
    intro _ heq
    have := congrArg (fun l => l.take 2) heq
    simp [replaceJsonCsv] at this
  | case2 c rest hpat ih =>
    intro h
    have hrw : replaceJsonCsv (c :: rest) = c :: replaceJsonCsv rest :=
      replaceJsonCsv.eq_2 c rest hpat
    obtain ⟨p, q, hpq⟩ := h
    cases p with
    | nil =>
      have hpq' : '.' :: 'j' :: 's' :: 'o' :: 'n' :: q = c :: rest := by
        simpa [jsonPat] using hpq
      injection hpq' with h1 h2
      exact absurd (hpat q h1.symm h2.symm) not_false
    | cons d p' =>
      have hpq' : d :: (p' ++ jsonPat ++ q) = c :: rest := by simpa using hpq
      injection hpq' with h1 h2
      have hne := ih ⟨p', q, h2⟩
      rw [hrw]
      intro he
      injection he with _ he2
      exact hne he2
  | case3 =>
    intro h
    obtain ⟨p, q, hpq⟩ := h
    simp [jsonPat] at hpq

/-- `availablePower` factors as the Cp value times a TSR-independent
positive coefficient. -/
theorem availablePower_eq (t : ℚ) (e : Env) (area : ℚ) :
    availablePower t e area =
      powerCoefficient t * ((1/2) * e.air_density * area * e.wind_speed^3) := by
  unfold availablePower
  ring

/-- A valid configuration passes §7 validation. -/
theorem validate_eq_none (cfg : TurbineConfig)
    (h1 : 0 < cfg.env.air_density) (h2 : 0 < cfg.env.wind_speed)
    (h3 : 0 < cfg.constraints.blade_radius) (h4 : 1 ≤ cfg.constraints.num_blades)
    (h5 : 0 < cfg.target_wattage) : validate cfg = none := by
  simp [validate, not_le.mpr h1, not_le.mpr h2, not_le.mpr h3, not_lt.mpr h4,
    not_le.mpr h5]

/-- The bisection search returns the first bracket midpoint whenever that
midpoint is already within tolerance. -/
theorem bisect_first_hit (f : ℚ → ℚ) (tol : ℚ) (k : ℕ) (lo hi : ℚ)
    (h : |f ((lo + hi) / 2)| ≤ tol) : bisect f tol k lo hi = some ((lo + hi) / 2) := by
  cases k with
  | zero => simp [bisect, h]
  | succ k => simp [bisect, h]

/-- `availablePower` at a literal environment factors as the Cp value
times a TSR-independent coefficient. -/
theorem availablePower_mk_eq (t ρ v area : ℚ) :
    availablePower t ⟨ρ, v⟩ area = powerCoefficient t * ((1/2) * ρ * area * v^3) := by
  unfold availablePower
  show powerCoefficient t * (1/2) * ρ * area * v^3 = _
  ring

/-- Evaluation of `solve` once validation has passed: the explicit
feasibility check followed by the root search and assembly. -/
theorem solve_eval (piV w ρ v r : ℚ) (n : ℤ) (g : GeneratorType)
    (hval : validate ⟨w, ⟨ρ, v⟩, ⟨r, n, g⟩⟩ = none) :
    solve piV ⟨w, ⟨ρ, v⟩, ⟨r, n, g⟩⟩ =
      (if availablePower tsrOpt ⟨ρ, v⟩ (piV * r^2) < w
       then Except.error (SolverError.infeasibleDesign
         (availablePower tsrOpt ⟨ρ, v⟩ (piV * r^2)))
       else
         match bisect (fun t => availablePower t ⟨ρ, v⟩ (piV * r^2) - w) (w / 10000)
             ITER_CAP TSR_MIN tsrOpt with
         | none => Except.error SolverError.solverDidNotConverge
         | some t =>
           Except.ok
             { rotor_area := piV * r^2
               blade_length := r
               tsr := t
               rpm := shaftRpm piV t v r
               gear_ratio := shaftRpm piV t v r / nominalGeneratorRpm g
               generator_type := g
               cut_in := CUT_IN
               cut_out := CUT_OUT }) := by
  unfold solve
  rw [hval]

/-! ## Claim theorems -/

/-- Claim C2 (code defect, evaluated at the failing inputs): the Cp curve
of `plot_tsr_analysis` violates every required shape condition on the TSR
domain `[1, 15]`: at `tsr = 15` it equals `7.5`, far above the Betz limit
`0.593`, so the curve does not fall back toward 0 near `TSR_MAX`; and it
decreases from `tsr = 3` to `tsr = 5` yet increases from `tsr = 11` to
`tsr = 12`, so it is not monotonically increasing then monotonically
decreasing with a single interior maximum. -/
theorem cpCurve_shape_requirements_fail :
    cpCurve 15 = 15/2 ∧ (593/1000 : ℚ) < cpCurve 15 ∧
    cpCurve 5 < cpCurve 3 ∧ cpCurve 11 < cpCurve 12 := by
  refine ⟨?_, ?_, ?_, ?_⟩ <;> norm_num [cpCurve]

/-- Claim C4: for every TSR in the supported domain `[1, 15]`, the power
coefficient computed by `plot_tsr_analysis` equals
`max(0, 0.5·tsr·(1 − 0.3·tsr + 0.02·tsr²))` and is therefore
nonnegative. -/
theorem cpCurve_formula_and_nonneg (t : ℚ) (h1 : 1 ≤ t) (h15 : t ≤ 15) :
    cpCurve t = max 0 ((1/2) * t * (1 - (3/10) * t + (1/50) * t^2)) ∧
    0 ≤ cpCurve t :=
  ⟨rfl, le_max_left _ _⟩

/-- Witness for C4 at the interior sample `tsr = 7`. -/
theorem cpCurve_formula_and_nonneg_witness :
    (1:ℚ) ≤ 7 ∧ (7:ℚ) ≤ 15 ∧
    (cpCurve 7 = max 0 ((1/2) * 7 * (1 - (3/10) * 7 + (1/50) * 7^2)) ∧
     0 ≤ cpCurve 7) :=
  ⟨by norm_num, by norm_num, cpCurve_formula_and_nonneg 7 (by norm_num) (by norm_num)⟩

/-- Claim C5, counterexample: at `power_curve`'s operating TSR of `7.0`,
the Cp curve of `plot_tsr_analysis` does not agree with the power
coefficient `power_curve` uses, so the visualization layer does not use a
single canonical Cp model. -/
theorem powerCurveCp_cpCurve_disagree : cpCurve powerCurveTsr ≠ powerCurveCp := by
  norm_num [cpCurve, powerCurveTsr, powerCurveCp]

/-- Claim C5 as amended: the two visualization functions embody divergent
Cp models — `power_curve` uses the constant `Cp = 0.4` at its operating
TSR `7.0`, while the Cp curve of `plot_tsr_analysis` evaluates to `0`
there. -/
theorem visualization_cp_models_diverge :
    powerCurveCp = 2/5 ∧ cpCurve powerCurveTsr = 0 ∧
    cpCurve powerCurveTsr ≠ powerCurveCp := by
  refine ⟨rfl, ?_, ?_⟩ <;> norm_num [cpCurve, powerCurveTsr, powerCurveCp]

/-- Claim C6: every `(wind_speed, power)` sample produced by `power_curve`
satisfies the operating envelope: inside `[cut_in, cut_out]` the power is
`Cp · 0.5 · air_density · (π · blade_radius²) · wind_speed³` with
`Cp = 0.4`, and outside it the power is exactly `0`. -/
theorem power_curve_envelope (piV : ℚ) (cfg : VizCfg) (v p : ℚ)
    (hmem : (v, p) ∈ powerCurveTable piV cfg) :
    (cfg.cut_in ≤ v ∧ v ≤ cfg.cut_out →
      p = powerCurveCp * (1/2) * cfg.air_density * (piV * cfg.blade_radius^2) * v^3) ∧
    (v < cfg.cut_in ∨ cfg.cut_out < v → p = 0) := by
  obtain ⟨i, _, hpair⟩ := List.mem_map.1 hmem
  obtain ⟨hv, hp⟩ := Prod.mk.injEq .. ▸ hpair
  subst hv
  subst hp
  constructor
  · rintro ⟨hlo, hhi⟩
    have hcond : ¬ (windSample i < cfg.cut_in ∨ cfg.cut_out < windSample i) := by
      push_neg
      exact ⟨hlo, hhi⟩
    unfold powerAt
    rw [if_neg hcond]
  · intro hout
    unfold powerAt
    rw [if_pos hout]

/-- Witness for C6 at the last sample of the default grid (`v = 25`, on
the cut-out boundary, hence producing the full formula value) for the
example configuration `radius 0.6 m, density 1.225, cut 2.5/25` and
`piV = 3`. -/
theorem power_curve_envelope_witness :
    ((25:ℚ), (33075/8:ℚ)) ∈ powerCurveTable 3 ⟨3/5, 49/40, 5/2, 25⟩ ∧
    (((5/2:ℚ) ≤ 25 ∧ (25:ℚ) ≤ 25 →
      (33075/8:ℚ) = powerCurveCp * (1/2) * (49/40) * (3 * (3/5)^2) * 25^3) ∧
     ((25:ℚ) < 5/2 ∨ (25:ℚ) < 25 → (33075/8:ℚ) = 0)) := by
  have hmem : ((25:ℚ), (33075/8:ℚ)) ∈ powerCurveTable 3 ⟨3/5, 49/40, 5/2, 25⟩ := by
    refine List.mem_map.2 ⟨199, List.mem_range.mpr (by norm_num), ?_⟩
    norm_num [windSample, powerAt, powerCurveCp]
  exact ⟨hmem, power_curve_envelope 3 ⟨3/5, 49/40, 5/2, 25⟩ 25 (33075/8) hmem⟩

/-- Claim C7, counterexample: `plot_tsr_analysis` performs no radius
check — at the invalid radius `-0.5 ≤ 0` (TSR `6`, wind speed `2`,
`piV = 3`) the RPM computation does not fail but returns the finite
(physically meaningless) value `-240`. -/
theorem shaftRpm_no_failure_on_nonpositive_radius :
    shaftRpm 3 6 2 (-(1/2)) = -240 := by
  norm_num [shaftRpm]

/-- Claim C7 as amended: for every TSR, wind speed and radius with
`r > 0` (and positive π parameter), the RPM computed in
`plot_tsr_analysis` equals `ω · 60 / (2π) = 30·tsr·v/(π·r)` where
`ω = tsr · v / r`, and it is positive for positive TSR and wind speed;
the code never fails on `radius ≤ 0` — it computes a finite value there. -/
theorem shaftRpm_formula (piV t v r : ℚ)
    (hpi : 0 < piV) (hr : 0 < r) (ht : 0 < t) (hv : 0 < v) :
    shaftRpm piV t v r = 30 * t * v / (piV * r) ∧ 0 < shaftRpm piV t v r := by
  constructor
  · unfold shaftRpm
    field_simp
    ring
  · unfold shaftRpm
    positivity

/-- Witness for C7 at `piV = 3, tsr = 7, v = 6 m/s, r = 0.5 m`. -/
theorem shaftRpm_formula_witness :
    shaftRpm 3 7 6 (1/2) = 30 * 7 * 6 / (3 * (1/2)) ∧ 0 < shaftRpm 3 7 6 (1/2) :=
  shaftRpm_formula 3 7 6 (1/2) (by norm_num) (by norm_num) (by norm_num) (by norm_num)

/-- Claim C3: whenever any of the §7 bounds is violated, the solver fails
during validation with an `InvalidInput` error naming a violated field —
the error returned by `solve` is exactly the validation error, so no
numeric search runs and no `DesignSummary` is produced. -/
theorem solve_rejects_invalid_input (piV : ℚ) (cfg : TurbineConfig)
    (h : cfg.env.air_density ≤ 0 ∨ cfg.env.wind_speed ≤ 0 ∨
      cfg.constraints.blade_radius ≤ 0 ∨ cfg.constraints.num_blades < 1 ∨
      cfg.target_wattage ≤ 0) :
    ∃ f, validate cfg = some (SolverError.invalidInput f) ∧
      solve piV cfg = Except.error (SolverError.invalidInput f) ∧
      fieldViolation cfg f := by
  by_cases h1 : cfg.env.air_density ≤ 0
  · exact ⟨"air_density", by simp [validate, h1], by simp [solve, validate, h1],
      Or.inl ⟨rfl, h1⟩⟩
  · by_cases h2 : cfg.env.wind_speed ≤ 0
    · exact ⟨"wind_speed", by simp [validate, h1, h2],
        by simp [solve, validate, h1, h2], Or.inr (Or.inl ⟨rfl, h2⟩)⟩
    · by_cases h3 : cfg.constraints.blade_radius ≤ 0
      · exact ⟨"blade_radius", by simp [validate, h1, h2, h3],
          by simp [solve, validate, h1, h2, h3], Or.inr (Or.inr (Or.inl ⟨rfl, h3⟩))⟩
      · by_cases h4 : cfg.constraints.num_blades < 1
        · exact ⟨"num_blades", by simp [validate, h1, h2, h3, h4],
            by simp [solve, validate, h1, h2, h3, h4],
            Or.inr (Or.inr (Or.inr (Or.inl ⟨rfl, h4⟩)))⟩
        · have h5 : cfg.target_wattage ≤ 0 := by tauto
          exact ⟨"target_wattage", by simp [validate, h1, h2, h3, h4, h5],
            by simp [solve, validate, h1, h2, h3, h4, h5],
            Or.inr (Or.inr (Or.inr (Or.inr ⟨rfl, h5⟩)))⟩

/-- Witness for C3 at the spec's rejection scenario `air_density = 0`. -/
theorem solve_rejects_invalid_input_witness :
    ∃ f, validate ⟨50, ⟨0, 6⟩, ⟨1/2, 3, GeneratorType.Brushless⟩⟩ =
        some (SolverError.invalidInput f) ∧
      solve 3 ⟨50, ⟨0, 6⟩, ⟨1/2, 3, GeneratorType.Brushless⟩⟩ =
        Except.error (SolverError.invalidInput f) ∧
      fieldViolation ⟨50, ⟨0, 6⟩, ⟨1/2, 3, GeneratorType.Brushless⟩⟩ f :=
  solve_rejects_invalid_input 3 _ (Or.inl (by norm_num))

/-- Claim C9, counterexample: the GUI form has exactly the five numeric
input rows and no generator-type input, and the configuration built by
`DesignApp.generate` carries the hard-coded `Brushless` generator — the
user cannot determine `generator_type`. -/
theorem gui_form_lacks_generator_input :
    guiFieldLabels = ["Target Wattage:", "Air Density:", "Wind Speed (m/s):",
      "Blade Radius (m):", "Number of Blades:"] ∧
    (guiBuildConfig 50 (49/40) 6 (1/2) 3).constraints.generator_type =
      GeneratorType.Brushless :=
  ⟨rfl, rfl⟩

/-- Claim C9 as amended: the GUI collects the five numeric inputs and
passes them to the solver on Generate with `generator_type` hard-coded to
`Brushless`; on any solver failure it shows the failure dialog with the
error message and no summary, and on success it shows the summary
dialog. -/
theorem gui_generate_behavior (piV wa ρ v r : ℚ) (n : ℤ) :
    (guiBuildConfig wa ρ v r n).constraints.generator_type = GeneratorType.Brushless ∧
    (∀ e, solve piV (guiBuildConfig wa ρ v r n) = Except.error e →
      guiGenerate piV wa ρ v r n = GuiOutcome.failureDialog (errMessage e)) ∧
    (∀ s, solve piV (guiBuildConfig wa ρ v r n) = Except.ok s →
      guiGenerate piV wa ρ v r n = GuiOutcome.summaryDialog s) := by
  refine ⟨rfl, ?_, ?_⟩ <;> intro x hx <;> simp [guiGenerate, hx]

/-- Witness for C9 (amended) at a failing input: target wattage `0` makes
the solver reject, and the GUI shows the failure dialog. -/
theorem gui_generate_behavior_witness :
    (guiBuildConfig 0 (49/40) 6 (1/2) 3).constraints.generator_type =
      GeneratorType.Brushless ∧
    guiGenerate 3 0 (49/40) 6 (1/2) 3 =
      GuiOutcome.failureDialog (errMessage (SolverError.invalidInput ("target_wattage"))) := by
  have hsolve : solve 3 (guiBuildConfig 0 (49/40) 6 (1/2) 3) =
      Except.error (SolverError.invalidInput ("target_wattage")) := by
    norm_num [solve, validate, guiBuildConfig]
  exact ⟨(gui_generate_behavior 3 0 (49/40) 6 (1/2) 3).1,
    (gui_generate_behavior 3 0 (49/40) 6 (1/2) 3).2.1 _ hsolve⟩

/-- Claim C10: for every `--output` path containing no `".json"`
substring, the CLI's `.replace(".json", ".csv")` leaves the path
unchanged, so the CSV is written to the very same path as the JSON
summary and, being written second, overwrites it — no JSON artifact
survives. -/
theorem cli_csv_overwrites_json_without_json (out : List Char)
    (h : ¬ (jsonPat <:+: out)) :
    cliCsvPath out = out ∧
    lastWrite (cliWrites out) out = some ArtifactKind.csvTable := by
  have h1 : cliCsvPath out = out := replaceJsonCsv_eq_self out h
  refine ⟨h1, ?_⟩
  simp [lastWrite, cliWrites, h1]

/-- Witness for C10 at the concrete output path `"output.txt"`. -/
theorem cli_csv_overwrites_json_without_json_witness :
    ¬ (jsonPat <:+: outputTxtPath) ∧
    (cliCsvPath outputTxtPath = outputTxtPath ∧
     lastWrite (cliWrites outputTxtPath) outputTxtPath = some ArtifactKind.csvTable) :=
  ⟨by decide, cli_csv_overwrites_json_without_json outputTxtPath (by decide)⟩

/-- Claim C8, counterexample: with `--output result.out` (no `".json"`
substring) the CSV path equals the JSON path — the CSV is not a sibling
file, and its later write leaves the CSV table as the only artifact at
the output path. -/
theorem cli_csv_not_sibling_at_result_out :
    cliCsvPath resultOutPath = resultOutPath ∧
    lastWrite (cliWrites resultOutPath) resultOutPath = some ArtifactKind.csvTable := by
  decide

/-- Claim C8 as amended: on success the CLI serializes exactly the eight
§3 fields, and writes the CSV (same field names) to the path obtained by
replacing `".json"` with `".csv"` in `--output`: a genuine sibling path
whenever `--output` contains `".json"`, but the very JSON path itself
(overwriting it) whenever it does not. -/
theorem cli_summary_fields_and_csv_sibling (d : DesignSummary) (out : List Char) :
    summaryFieldNames d = ["rotor_area", "blade_length", "tsr", "rpm",
      "gear_ratio", "generator_type", "cut_in", "cut_out"] ∧
    (jsonPat <:+: out → cliCsvPath out ≠ out) ∧
    (¬ (jsonPat <:+: out) → cliCsvPath out = out) :=
  ⟨rfl, replaceJsonCsv_ne_self out, replaceJsonCsv_eq_self out⟩

/-- Witness for C8 (amended) at the default output path `"summary.json"`
and a concrete summary. -/
theorem cli_summary_fields_and_csv_sibling_witness :
    summaryFieldNames ⟨1, 1, 1, 1, 1, GeneratorType.Brushless, 5/2, 25⟩ =
      ["rotor_area", "blade_length", "tsr", "rpm", "gear_ratio",
       "generator_type", "cut_in", "cut_out"] ∧
    cliCsvPath summaryJsonPath ≠ summaryJsonPath :=
  ⟨(cli_summary_fields_and_csv_sibling ⟨1, 1, 1, 1, 1, GeneratorType.Brushless, 5/2, 25⟩
      summaryJsonPath).1,
   (cli_summary_fields_and_csv_sibling ⟨1, 1, 1, 1, 1, GeneratorType.Brushless, 5/2, 25⟩
      summaryJsonPath).2.1 (by decide)⟩

/-- Claim C1: for every fixed valid Environment and Constraints there is
a maximum achievable power `P_max` — the available power at the
Cp-maximizing TSR — such that solving with any target wattage strictly
above `P_max` fails with `InfeasibleDesign` carrying `P_max` itself
(never silently clamped), while a target wattage below `P_max` (here the
available power at TSR `4.5`, hit by the root search) succeeds with a
summary whose `tsr` is strictly less than the Cp-maximizing TSR. -/
theorem solve_feasibility_boundary (piV ρ v r : ℚ) (n : ℤ) (g : GeneratorType)
    (hpi : 0 < piV) (hρ : 0 < ρ) (hv : 0 < v) (hr : 0 < r) (hn : 1 ≤ n) :
    ∃ pMax : ℚ, 0 < pMax ∧
      (∀ w, pMax < w →
        solve piV ⟨w, ⟨ρ, v⟩, ⟨r, n, g⟩⟩ =
          Except.error (SolverError.infeasibleDesign pMax)) ∧
      (∃ w s, 0 < w ∧ w < pMax ∧
        solve piV ⟨w, ⟨ρ, v⟩, ⟨r, n, g⟩⟩ = Except.ok s ∧ s.tsr < tsrOpt) := by
  have hkpos : 0 < (1/2) * ρ * (piV * r^2) * v^3 := by positivity
  have hcp8 : powerCoefficient tsrOpt = 57/100 := by
    norm_num [powerCoefficient, tsrOpt, TSR_MIN, TSR_MAX]
  have hcp45 : powerCoefficient (9/2) = 171/400 := by
    norm_num [powerCoefficient, TSR_MIN, TSR_MAX]
  have hpm : 0 < availablePower tsrOpt ⟨ρ, v⟩ (piV * r^2) := by
    rw [availablePower_mk_eq, hcp8]
    positivity
  have hwmid : 0 < availablePower (9/2) ⟨ρ, v⟩ (piV * r^2) := by
    rw [availablePower_mk_eq, hcp45]
    positivity
  have hwlt : availablePower (9/2) ⟨ρ, v⟩ (piV * r^2) <
      availablePower tsrOpt ⟨ρ, v⟩ (piV * r^2) := by
    rw [availablePower_mk_eq, availablePower_mk_eq, hcp45, hcp8]
    exact mul_lt_mul_of_pos_right (by norm_num) hkpos
  refine ⟨availablePower tsrOpt ⟨ρ, v⟩ (piV * r^2), hpm, ?_, ?_⟩
  · intro w hw
    have hw0 : 0 < w := hpm.trans hw
    have hval : validate ⟨w, ⟨ρ, v⟩, ⟨r, n, g⟩⟩ = none :=
      validate_eq_none _ hρ hv hr hn hw0
    rw [solve_eval piV w ρ v r n g hval, if_pos hw]
  · have hval : validate ⟨availablePower (9/2) ⟨ρ, v⟩ (piV * r^2), ⟨ρ, v⟩,
        ⟨r, n, g⟩⟩ = none :=
      validate_eq_none _ hρ hv hr hn hwmid
    have hmid : (TSR_MIN + tsrOpt)/2 = (9/2 : ℚ) := by norm_num [TSR_MIN, tsrOpt]
    have hbis : bisect
        (fun t => availablePower t ⟨ρ, v⟩ (piV * r^2) -
          availablePower (9/2) ⟨ρ, v⟩ (piV * r^2))
        (availablePower (9/2) ⟨ρ, v⟩ (piV * r^2) / 10000)
        ITER_CAP TSR_MIN tsrOpt = some ((TSR_MIN + tsrOpt)/2) := by
      apply bisect_first_hit
      rw [hmid]
      show |availablePower (9/2) ⟨ρ, v⟩ (piV * r^2) -
        availablePower (9/2) ⟨ρ, v⟩ (piV * r^2)| ≤ _
      rw [sub_self, abs_zero]
      exact div_nonneg hwmid.le (by norm_num)
    have hsolve : solve piV ⟨availablePower (9/2) ⟨ρ, v⟩ (piV * r^2), ⟨ρ, v⟩,
        ⟨r, n, g⟩⟩ = Except.ok
          { rotor_area := piV * r^2
            blade_length := r
            tsr := (TSR_MIN + tsrOpt)/2
            rpm := shaftRpm piV ((TSR_MIN + tsrOpt)/2) v r
            gear_ratio := shaftRpm piV ((TSR_MIN + tsrOpt)/2) v r /
              nominalGeneratorRpm g
            generator_type := g
            cut_in := CUT_IN
            cut_out := CUT_OUT } := by
      rw [solve_eval piV _ ρ v r n g hval, if_neg (not_lt.mpr hwlt.le), hbis]
    refine ⟨availablePower (9/2) ⟨ρ, v⟩ (piV * r^2), _, hwmid, hwlt, hsolve, ?_⟩
    show (TSR_MIN + tsrOpt)/2 < tsrOpt
    norm_num [TSR_MIN, tsrOpt]

/-- Witness for C1 at the spec's scenario environment and constraints:
`air_density 1.225, wind_speed 6, blade_radius 0.5, num_blades 3,
Brushless`, with `piV = 3`. -/
theorem solve_feasibility_boundary_witness :
    ∃ pMax : ℚ, 0 < pMax ∧
      (∀ w, pMax < w →
        solve 3 ⟨w, ⟨49/40, 6⟩, ⟨1/2, 3, GeneratorType.Brushless⟩⟩ =
          Except.error (SolverError.infeasibleDesign pMax)) ∧
      (∃ w s, 0 < w ∧ w < pMax ∧
        solve 3 ⟨w, ⟨49/40, 6⟩, ⟨1/2, 3, GeneratorType.Brushless⟩⟩ =
          Except.ok s ∧ s.tsr < tsrOpt) :=
  solve_feasibility_boundary 3 (49/40) 6 (1/2) 3 GeneratorType.Brushless
    (by norm_num) (by norm_num) (by norm_num) (by norm_num) (by norm_num)

end WindTurbine
